import Mathlib

/-
  Verification development for the gdbm Rust wrapper (src/src/lib.rs).

  The wrapper mediates between a caller and a foreign C key-value engine.
  We embed the wrapper's pure decision logic directly from the source:
  every foreign-call outcome (result code, returned datum, last-error
  channel value) is an explicit argument, mirroring the spec's guidance to
  model the error channel as an explicit side-channel value.  Byte strings
  are modelled as List Nat; Rust String values are modelled by their UTF-8
  byte sequences.  The foreign engine itself is not part of src/, so where
  a claim needs engine behaviour we model it from the spec's section 6
  contract; those definitions say so in their doc comments.
-/

/-- The error taxonomy, from enum GdbmError in src/src/lib.rs.  Each payload
is modelled by the string its to_string rendering produces. -/
inductive GdbmError where
  | FromUtf8Error (msg : String)
  | Utf8Error (msg : String)
  | NulError (msg : String)
  | Error (msg : String)
  | IoError (msg : String)
  | IntoStringError (msg : String)
deriving Repr, DecidableEq

/-- GdbmError::to_string from src/src/lib.rs: every arm renders the payload
(for FromUtf8Error via its utf8_error, still the payload's own text). -/
def GdbmError.to_string : GdbmError → String
  | .FromUtf8Error m => m
  | .Utf8Error m => m
  | .NulError m => m
  | .Error m => m
  | .IoError m => m
  | .IntoStringError m => m

/-- Modelled from the spec: the foreign gdbm_strerror function, mapping a
last-error code to its human-readable rendering (the engine is outside
src/; only the mapping's existence matters to the wrapper). -/
def gdbm_strerror_model (errno : Nat) : String :=
  "engine error " ++ toString errno

/-- fn get_error in src/src/lib.rs: reads the last-error channel (here an
explicit argument) and renders it through the engine's strerror. -/
def get_error (errno : Nat) : String :=
  gdbm_strerror_model errno

/-- datum in src/src/lib.rs: a buffer descriptor for caller bytes; built
only when the length fits a signed 32-bit integer, else a local
validation error naming the argument. -/
structure DatumDesc where
  bytes : List Nat
  dsize : Int
deriving Repr, DecidableEq

/-- fn datum(what, data) in src/src/lib.rs. -/
def datum (what : String) (data : List Nat) : Except GdbmError DatumDesc :=
  if data.length > 2 ^ 31 - 1 then
    .error (.Error (what ++ " too large"))
  else
    .ok ⟨data, (data.length : Int)⟩

/-- Open flag READER from the bitflags block in src/src/lib.rs. -/
def Open.READER : Nat := 0

/-- Open flag WRITER. -/
def Open.WRITER : Nat := 1

/-- Open flag WRCREAT. -/
def Open.WRCREAT : Nat := 2

/-- Open flag NEWDB. -/
def Open.NEWDB : Nat := 3

/-- Open flag FAST. -/
def Open.FAST : Nat := 16

/-- Open flag SYNC. -/
def Open.SYNC : Nat := 32

/-- Open flag NOLOCK. -/
def Open.NOLOCK : Nat := 64

/-- Store flag INSERT from the bitflags block in src/src/lib.rs. -/
def Store.INSERT : Nat := 0

/-- Store flag REPLACE. -/
def Store.REPLACE : Nat := 1

/-- The bitflags BitOr combination used for Open and Store flag values:
bitwise or of the underlying bits. -/
def open_combine (a b : Nat) : Nat :=
  Nat.lor a b

/-- A datum returned by the foreign engine: a possibly-null pointer, a
declared size, and (when non-null) the pointed-to bytes. -/
structure CDatum where
  dptr_null : Bool
  dsize : Int
  bytes : List Nat
deriving Repr, DecidableEq

/-- The null foreign datum (dptr is null). -/
def null_datum : CDatum := ⟨true, 0, []⟩

/-- The result-code branching of Gdbm::store in src/src/lib.rs, after the
foreign call: negative means a foreign-engine error rendered from the
error channel, otherwise Ok of whether the code was zero. -/
def store_map (result : Int) (errno : Nat) : Except GdbmError Bool :=
  if result < 0 then
    .error (.Error (get_error errno))
  else
    .ok (decide (result = 0))

/-- The branching of Gdbm::fetch_data in src/src/lib.rs after the foreign
call: a null pointer always yields an error rendered from the error
channel; a negative declared size is a corruption error; otherwise the
bytes are copied out and returned. -/
def fetch_data_map (content : CDatum) (errno : Nat) : Except GdbmError (List Nat) :=
  if content.dptr_null then
    .error (.Error (get_error errno))
  else if content.dsize < 0 then
    .error (.Error "content has negative size")
  else
    .ok content.bytes

/-- The branching of Gdbm::delete in src/src/lib.rs after the foreign call:
negative result with unset error channel is Ok false, negative with a set
channel is an engine error, non-negative is Ok true. -/
def delete_map (result : Int) (errno : Nat) : Except GdbmError Bool :=
  if result < 0 then
    if errno = 0 then
      .ok false
    else
      .error (.Error (get_error errno))
  else
    .ok true

/-- The branching of Gdbm::exists in src/src/lib.rs after the foreign call:
zero result is Ok true; a nonzero result with unset error channel is
again Ok true (as written in the source); a nonzero result with a set
channel is an engine error. -/
def exists_map (result : Int) (errno : Nat) : Except GdbmError Bool :=
  if result = 0 then
    .ok true
  else
    if errno = 0 then
      .ok true
    else
      .error (.Error (get_error errno))

/-- Modelled from the spec: the engine's table of records, an association
list from key bytes to content bytes (first match wins). -/
abbrev Table := List (List Nat × List Nat)

/-- Lookup in the modelled engine table. -/
def tbl_lookup : Table → List Nat → Option (List Nat)
  | [], _ => none
  | (k, v) :: rest, key => if k = key then some v else tbl_lookup rest key

/-- Modelled from the spec: the foreign store call (engine outside src/).
Per the section 6 contract the result is zero when the record is stored,
positive when an insert-only store finds the key already present. -/
def gdbm_store_model (tbl : Table) (key content : List Nat) (flag : Nat) :
    Int × Table :=
  if flag = Store.REPLACE then
    (0, (key, content) :: tbl)
  else
    match tbl_lookup tbl key with
    | some _ => (1, tbl)
    | none => (0, (key, content) :: tbl)

/-- Modelled from the spec: the foreign fetch call (engine outside src/).
A present key yields a non-null datum holding the stored bytes with their
exact length; an absent key yields the null datum. -/
def gdbm_fetch_model (tbl : Table) (key : List Nat) : CDatum :=
  match tbl_lookup tbl key with
  | some v => ⟨false, (v.length : Int), v⟩
  | none => null_datum

/-- The spec's section 6 contract constraint on a foreign store result
code: a positive code only arises when an insert-only store found the key
already present. -/
def store_contract_ok (tbl : Table) (key : List Nat) (replace : Bool) (r : Int) : Prop :=
  0 < r → replace = false ∧ (tbl_lookup tbl key).isSome = true

/-- Gdbm::store in src/src/lib.rs end to end: build both descriptors (the
key first), then make the foreign call (spec-modelled engine) with the
flag derived from replace, then map the result code.  Returns the result
together with the engine table afterwards. -/
def Gdbm.store (tbl : Table) (errno : Nat) (key content : List Nat)
    (replace : Bool) : Except GdbmError Bool × Table :=
  match datum "key" key with
  | .error e => (.error e, tbl)
  | .ok _ =>
    match datum "content" content with
    | .error e => (.error e, tbl)
    | .ok _ =>
      let flag := if replace then Store.REPLACE else Store.INSERT
      let res := gdbm_store_model tbl key content flag
      (store_map res.1 errno, res.2)

/-- Gdbm::fetch_data in src/src/lib.rs end to end: build the key
descriptor, make the foreign call (spec-modelled engine), then branch on
the returned datum. -/
def Gdbm.fetch_data (tbl : Table) (errno : Nat) (key : List Nat) :
    Except GdbmError (List Nat) :=
  match datum "key" key with
  | .error e => .error e
  | .ok _ => fetch_data_map (gdbm_fetch_model tbl key) errno

/-- String::from_utf8 validity from the Rust standard library: the
standard UTF-8 well-formedness table over the byte sequence. -/
def isCont (b : Nat) : Bool :=
  decide (0x80 ≤ b ∧ b ≤ 0xBF)

/-- Validity of a byte sequence as UTF-8, as checked by String::from_utf8. -/
def validUtf8 : List Nat → Bool
  | [] => true
  | b :: rest =>
    if b < 0x80 then
      validUtf8 rest
    else if 0xC2 ≤ b ∧ b ≤ 0xDF then
      match rest with
      | b1 :: r => isCont b1 && validUtf8 r
      | [] => false
    else if b = 0xE0 then
      match rest with
      | b1 :: b2 :: r =>
        decide (0xA0 ≤ b1 ∧ b1 ≤ 0xBF) && isCont b2 && validUtf8 r
      | _ => false
    else if 0xE1 ≤ b ∧ b ≤ 0xEC then
      match rest with
      | b1 :: b2 :: r => isCont b1 && isCont b2 && validUtf8 r
      | _ => false
    else if b = 0xED then
      match rest with
      | b1 :: b2 :: r =>
        decide (0x80 ≤ b1 ∧ b1 ≤ 0x9F) && isCont b2 && validUtf8 r
      | _ => false
    else if 0xEE ≤ b ∧ b ≤ 0xEF then
      match rest with
      | b1 :: b2 :: r => isCont b1 && isCont b2 && validUtf8 r
      | _ => false
    else if b = 0xF0 then
      match rest with
      | b1 :: b2 :: b3 :: r =>
        decide (0x90 ≤ b1 ∧ b1 ≤ 0xBF) && isCont b2 && isCont b3 && validUtf8 r
      | _ => false
    else if 0xF1 ≤ b ∧ b ≤ 0xF3 then
      match rest with
      | b1 :: b2 :: b3 :: r => isCont b1 && isCont b2 && isCont b3 && validUtf8 r
      | _ => false
    else if b = 0xF4 then
      match rest with
      | b1 :: b2 :: b3 :: r =>
        decide (0x80 ≤ b1 ∧ b1 ≤ 0x8F) && isCont b2 && isCont b3 && validUtf8 r
      | _ => false
    else
      false

/-- Gdbm::fetch_string in src/src/lib.rs: fetch_data then strict UTF-8
decoding; an invalid sequence becomes a FromUtf8Error.  The decoded
string is modelled by its byte sequence. -/
def Gdbm.fetch_string (tbl : Table) (errno : Nat) (key : List Nat) :
    Except GdbmError (List Nat) :=
  match Gdbm.fetch_data tbl errno key with
  | .error e => .error e
  | .ok v =>
    if validUtf8 v then
      .ok v
    else
      .error (.FromUtf8Error "invalid utf-8 sequence")

/-- Gdbm::fetch_cstring in src/src/lib.rs: like fetch_string, but when the
decoded string ends with the NUL character (one byte in UTF-8) that last
character is popped. -/
def Gdbm.fetch_cstring (tbl : Table) (errno : Nat) (key : List Nat) :
    Except GdbmError (List Nat) :=
  match Gdbm.fetch_data tbl errno key with
  | .error e => .error e
  | .ok v =>
    if validUtf8 v then
      .ok (if v.getLast? = some 0 then v.dropLast else v)
    else
      .error (.FromUtf8Error "invalid utf-8 sequence")

/-- Gdbm::delete in src/src/lib.rs end to end over an arbitrary foreign
result code: build the key descriptor first, then map the foreign result
through the delete branching. -/
def Gdbm.delete (result : Int) (errno : Nat) (key : List Nat) :
    Except GdbmError Bool :=
  match datum "key" key with
  | .error e => .error e
  | .ok _ => delete_map result errno

/-- Gdbm::exists in src/src/lib.rs end to end over an arbitrary foreign
result code: build the key descriptor first, then map the foreign result
through the exists branching. -/
def Gdbm.key_exists (result : Int) (errno : Nat) (key : List Nat) :
    Except GdbmError Bool :=
  match datum "key" key with
  | .error e => .error e
  | .ok _ => exists_map result errno

/-- An opened database handle; the payload models the non-null foreign
GDBM_FILE pointer. -/
structure GdbmHandle where
  handle_id : Nat
deriving Repr, DecidableEq

/-- Gdbm::new in src/src/lib.rs: validate block_size and mode against the
signed 32-bit range, convert the path (failing on an embedded nul byte),
then make the foreign open call, whose possibly-null result is the
openResult argument; a null result becomes an error, a handle is returned
only from a non-null result. -/
def Gdbm.new (path : List Nat) (block_size : Nat) (mode : Nat)
    (openResult : Option GdbmHandle) : Except GdbmError GdbmHandle :=
  if block_size > 2 ^ 31 - 1 then
    .error (.Error "block_size too large")
  else if mode > 2 ^ 31 - 1 then
    .error (.Error "invalid mode")
  else if path.contains 0 then
    .error (.NulError "nul byte found in provided data")
  else
    match openResult with
    | none => .error (.Error "gdbm_open failed")
    | some h => .ok h

/-- The Display implementation for GdbmError in src/src/lib.rs writes self
with a format string whose one placeholder formats self through Display
again, so each step of rendering immediately re-enters the same rendering
with nothing written; fuel bounds the call depth. -/
def display_fmt : Nat → GdbmError → Option String
  | 0, _ => none
  | fuel + 1, e => display_fmt fuel e

/-- Discriminates results that are the engine-failure error shape
(GdbmError::Error) produced from the error channel. -/
def is_engine_error : Except GdbmError (List Nat) → Bool
  | .error (.Error _) => true
  | _ => false

/-- C1: the claim states that a non-found result code with the error
channel unset makes exists return Ok false; the source instead returns
Ok true on that branch (so exists can never report absence), while the
found code yields Ok true and a set channel yields an engine error. -/
theorem exists_absent_unset_channel_returns_true :
    exists_map 1 0 = .ok true ∧ exists_map 0 0 = .ok true ∧
      exists_map 1 7 = .error (.Error (get_error 7)) :=
  ⟨rfl, rfl, rfl⟩

/-- C2 counterexample: with a null result pointer and the error channel
unset (errno 0), fetch_data returns the same engine-failure error shape
(GdbmError::Error carrying the channel rendering) as when the channel is
set, not a distinct not-found outcome. -/
theorem fetch_null_unset_channel_is_engine_error :
    is_engine_error (fetch_data_map null_datum 0) = true ∧
      is_engine_error (fetch_data_map null_datum 7) = true ∧
      fetch_data_map null_datum 0 = .error (.Error (get_error 0)) :=
  ⟨rfl, rfl, rfl⟩

/-- C2 amended: on a null result pointer fetch_data always returns an
engine error carrying the message read from the error channel, whether or
not an error is recorded there; not-found is not returned as a separately
distinguishable outcome. -/
theorem fetch_null_always_engine_error (errno : Nat) :
    fetch_data_map null_datum errno = .error (.Error (get_error errno)) :=
  rfl

/-- C3: store maps a zero result code to Ok true, maps every negative
result code to a foreign-engine error carrying the error-channel message,
and under the engine contract returns Ok false only in the insert-only,
key-already-present case. -/
theorem store_result_mapping (r : Int) (e : Nat) (tbl : Table)
    (key : List Nat) (replace : Bool)
    (hc : store_contract_ok tbl key replace r) :
    (r = 0 → store_map r e = .ok true) ∧
      (r < 0 → store_map r e = .error (.Error (get_error e))) ∧
      (store_map r e = .ok false →
        replace = false ∧ (tbl_lookup tbl key).isSome = true) := by
  refine ⟨?_, ?_, ?_⟩
  · intro h0
    subst h0
    simp [store_map]
  · intro hneg
    simp [store_map, hneg]
  · intro hfalse
    have hr : 0 < r := by
      rcases lt_trichotomy r 0 with hlt | heq | hgt
      · simp [store_map, hlt] at hfalse
      · subst heq
        simp [store_map] at hfalse
      · exact hgt
    exact hc hr

/-- Witness for C3 at result code 1 (insert-only store of a present key). -/
theorem store_result_mapping_witness :
    ((1 : Int) = 0 → store_map 1 0 = .ok true) ∧
      ((1 : Int) < 0 → store_map 1 0 = .error (.Error (get_error 0))) ∧
      (store_map 1 0 = .ok false →
        false = false ∧ (tbl_lookup [([2], [3])] [2]).isSome = true) :=
  store_result_mapping 1 0 [([2], [3])] [2] false (fun _ => ⟨rfl, rfl⟩)

/-- C4: delete maps a negative foreign result with unset error channel to
Ok false (key absent), a negative result with a set channel to an engine
error, and a non-negative result to Ok true (record removed). -/
theorem delete_result_mapping (r : Int) (e : Nat) :
    (r < 0 → e = 0 → delete_map r e = .ok false) ∧
      (r < 0 → e ≠ 0 → delete_map r e = .error (.Error (get_error e))) ∧
      (0 ≤ r → delete_map r e = .ok true) := by
  refine ⟨?_, ?_, ?_⟩
  · intro hr he
    simp [delete_map, hr, he]
  · intro hr he
    simp [delete_map, hr, he]
  · intro hr
    simp [delete_map, not_lt.mpr hr]

/-- Witness for C4 at the three foreign outcomes. -/
theorem delete_result_mapping_witness :
    delete_map (-1) 0 = .ok false ∧
      delete_map (-1) 5 = .error (.Error (get_error 5)) ∧
      delete_map 0 3 = .ok true :=
  ⟨(delete_result_mapping (-1) 0).1 (by decide) rfl,
   (delete_result_mapping (-1) 5).2.1 (by decide) (by decide),
   (delete_result_mapping 0 3).2.2 (by decide)⟩

/-- C5: an operation argument longer than 2^31 - 1 bytes produces the
local validation error naming that argument, for every engine state and
foreign outcome, so the result is fixed before any foreign call; this
covers store (both arguments), fetch_data and its string variants,
delete, and exists. -/
theorem oversized_args_fail_fast (big small : List Nat)
    (hb : big.length > 2 ^ 31 - 1) (hs : small.length ≤ 2 ^ 31 - 1) :
    (∀ tbl e content rep,
        Gdbm.store tbl e big content rep = (.error (.Error "key too large"), tbl)) ∧
      (∀ tbl e rep,
        Gdbm.store tbl e small big rep = (.error (.Error "content too large"), tbl)) ∧
      (∀ tbl e, Gdbm.fetch_data tbl e big = .error (.Error "key too large")) ∧
      (∀ tbl e, Gdbm.fetch_string tbl e big = .error (.Error "key too large")) ∧
      (∀ tbl e, Gdbm.fetch_cstring tbl e big = .error (.Error "key too large")) ∧
      (∀ r e, Gdbm.delete r e big = .error (.Error "key too large")) ∧
      (∀ r e, Gdbm.key_exists r e big = .error (.Error "key too large")) := by
  have hb2 : 2147483647 < big.length := by omega
  have hs2 : small.length ≤ 2147483647 := by omega
  have hdb : datum "key" big = .error (.Error "key too large") := by
    simp [datum, hb2]
  have hdc : datum "content" big = .error (.Error "content too large") := by
    simp [datum, hb2]
  have hds : datum "key" small = .ok ⟨small, (small.length : Int)⟩ := by
    simp [datum, Nat.not_lt.mpr hs2]
  refine ⟨?_, ?_, ?_, ?_, ?_, ?_, ?_⟩ <;> intros <;>
    simp [Gdbm.store, Gdbm.fetch_data, Gdbm.fetch_string, Gdbm.fetch_cstring,
      Gdbm.delete, Gdbm.key_exists, hdb, hdc, hds]

/-- Witness for C5: a key of length exactly 2^31 is rejected as too large,
and so is a content argument of that length behind a small key. -/
theorem oversized_args_fail_fast_witness :
    Gdbm.fetch_data [] 0 (List.replicate (2 ^ 31) 0) = .error (.Error "key too large") ∧
      Gdbm.store [] 0 [1] (List.replicate (2 ^ 31) 0) true
        = (.error (.Error "content too large"), []) :=
  ⟨(oversized_args_fail_fast (List.replicate (2 ^ 31) 0) [1]
      (by rw [List.length_replicate]; omega) (by simp)).2.2.1 [] 0,
   (oversized_args_fail_fast (List.replicate (2 ^ 31) 0) [1]
      (by rw [List.length_replicate]; omega) (by simp)).2.1 [] 0 true⟩

/-- C6: for key and value within the signed 32-bit length bound, a
replace-mode store succeeds with Ok true and an immediate fetch of the
same key on the resulting state returns exactly the stored bytes. -/
theorem store_fetch_roundtrip (tbl : Table) (k v : List Nat) (e e2 : Nat)
    (hk : k.length ≤ 2 ^ 31 - 1) (hv : v.length ≤ 2 ^ 31 - 1) :
    (Gdbm.store tbl e k v true).1 = .ok true ∧
      Gdbm.fetch_data (Gdbm.store tbl e k v true).2 e2 k = .ok v := by
  have hk2 : k.length ≤ 2147483647 := by omega
  have hv2 : v.length ≤ 2147483647 := by omega
  have hdk : datum "key" k = .ok ⟨k, (k.length : Int)⟩ := by
    simp [datum, Nat.not_lt.mpr hk2]
  have hdv : datum "content" v = .ok ⟨v, (v.length : Int)⟩ := by
    simp [datum, Nat.not_lt.mpr hv2]
  have hnn : ¬((v.length : Int) < 0) := not_lt.mpr (Int.natCast_nonneg _)
  have hstore : Gdbm.store tbl e k v true = (.ok true, (k, v) :: tbl) := by
    simp [Gdbm.store, hdk, hdv, gdbm_store_model, store_map]
  refine ⟨by rw [hstore], ?_⟩
  rw [hstore]
  simp [Gdbm.fetch_data, hdk, gdbm_fetch_model, tbl_lookup, fetch_data_map, hnn]

/-- Witness for C6 on a concrete store-then-fetch. -/
theorem store_fetch_roundtrip_witness :
    (Gdbm.store [] 0 [1] [2, 3] true).1 = .ok true ∧
      Gdbm.fetch_data (Gdbm.store [] 0 [1] [2, 3] true).2 0 [1] = .ok [2, 3] :=
  store_fetch_roundtrip [] [1] [2, 3] 0 0 (by decide) (by decide)

/-- C7: open validates block_size and mode against the signed 32-bit range
before the foreign call (the validation error is the same for every
foreign open outcome), and a handle is returned only when the foreign
open returned a non-null one, so a null foreign handle yields an error. -/
theorem new_open_contract (path : List Nat) (bs mode : Nat)
    (res : Option GdbmHandle) :
    (bs > 2 ^ 31 - 1 → ∀ res2 : Option GdbmHandle,
        Gdbm.new path bs mode res2 = .error (.Error "block_size too large")) ∧
      (bs ≤ 2 ^ 31 - 1 → mode > 2 ^ 31 - 1 → ∀ res2 : Option GdbmHandle,
        Gdbm.new path bs mode res2 = .error (.Error "invalid mode")) ∧
      (∀ h : GdbmHandle, Gdbm.new path bs mode res = .ok h → res = some h) := by
  refine ⟨?_, ?_, ?_⟩
  · intro hbs res2
    have hbs2 : 2147483647 < bs := by omega
    simp [Gdbm.new, hbs2]
  · intro hbs hmode res2
    have hbs2 : bs ≤ 2147483647 := by omega
    have hmode2 : 2147483647 < mode := by omega
    simp [Gdbm.new, Nat.not_lt.mpr hbs2, hmode2]
  · intro h hok
    by_cases h1 : 2147483647 < bs
    · simp [Gdbm.new, h1] at hok
    · by_cases h2 : 2147483647 < mode
      · simp [Gdbm.new, h1, h2] at hok
      · by_cases h3 : 0 ∈ path
        · simp [Gdbm.new, h1, h2, h3] at hok
        · cases res with
          | none => simp [Gdbm.new, h1, h2, h3] at hok
          | some hh =>
            simp [Gdbm.new, h1, h2, h3] at hok
            rw [hok]

/-- Witness for C7: block_size 2^31 and mode 2^31 are rejected whatever the
foreign open would have returned, and a returned handle matches the
foreign result. -/
theorem new_open_contract_witness :
    Gdbm.new [] (2 ^ 31) 0 none = .error (.Error "block_size too large") ∧
      Gdbm.new [] 0 (2 ^ 31) none = .error (.Error "invalid mode") ∧
      (some ⟨1⟩ : Option GdbmHandle) = some ⟨1⟩ :=
  ⟨(new_open_contract [] (2 ^ 31) 0 none).1 (by norm_num) none,
   (new_open_contract [] 0 (2 ^ 31) none).2.1 (by norm_num) (by norm_num) none,
   (new_open_contract [] 0 0 (some ⟨1⟩)).2.2 ⟨1⟩ rfl⟩

/-- C8: for a stored record, the strict string fetch fails with the UTF-8
error when the bytes are not valid UTF-8; the trimming fetch of valid
bytes ending in a single zero byte returns them with exactly that byte
removed, and of valid bytes not ending in a zero byte returns them
unchanged. -/
theorem fetch_string_modes (tbl : Table) (key bytes : List Nat) (e : Nat)
    (hk : key.length ≤ 2 ^ 31 - 1) (hl : tbl_lookup tbl key = some bytes) :
    (validUtf8 bytes = false →
        Gdbm.fetch_string tbl e key = .error (.FromUtf8Error "invalid utf-8 sequence")) ∧
      (∀ pre, validUtf8 bytes = true → bytes = pre ++ [0] →
        pre.getLast? ≠ some 0 → Gdbm.fetch_cstring tbl e key = .ok pre) ∧
      (validUtf8 bytes = true → bytes.getLast? ≠ some 0 →
        Gdbm.fetch_cstring tbl e key = .ok bytes) := by
  have hk2 : key.length ≤ 2147483647 := by omega
  have hdk : datum "key" key = .ok ⟨key, (key.length : Int)⟩ := by
    simp [datum, Nat.not_lt.mpr hk2]
  have hnn : ¬((bytes.length : Int) < 0) := not_lt.mpr (Int.natCast_nonneg _)
  have hfd : Gdbm.fetch_data tbl e key = .ok bytes := by
    simp [Gdbm.fetch_data, hdk, gdbm_fetch_model, hl, fetch_data_map, hnn]
  refine ⟨?_, ?_, ?_⟩
  · intro hbad
    simp [Gdbm.fetch_string, hfd, hbad]
  · intro pre hok hsplit hlast
    subst hsplit
    simp [Gdbm.fetch_cstring, hfd, hok]
  · intro hok hlast
    simp [Gdbm.fetch_cstring, hfd, hok, hlast]

/-- Witness for C8 on three concrete stored records. -/
theorem fetch_string_modes_witness :
    Gdbm.fetch_string [([1], [255])] 0 [1]
        = .error (.FromUtf8Error "invalid utf-8 sequence") ∧
      Gdbm.fetch_cstring [([1], [65, 0])] 0 [1] = .ok [65] ∧
      Gdbm.fetch_cstring [([1], [66])] 0 [1] = .ok [66] :=
  ⟨(fetch_string_modes [([1], [255])] [1] [255] 0 (by decide) rfl).1 rfl,
   (fetch_string_modes [([1], [65, 0])] [1] [65, 0] 0 (by decide) rfl).2.1
     [65] rfl rfl (by decide),
   (fetch_string_modes [([1], [66])] [1] [66] 0 (by decide) rfl).2.2 rfl (by decide)⟩

/-- C9: the numeric flag encodings match the engine contract exactly:
read-only 0, read-write 1, read-write-create 2, always-create 3, fast 16,
sync 32, no-lock 64, insert 0, replace 1, with flags combined by bitwise
or. -/
theorem flag_encoding :
    Open.READER = 0 ∧ Open.WRITER = 1 ∧ Open.WRCREAT = 2 ∧ Open.NEWDB = 3 ∧
      Open.FAST = 16 ∧ Open.SYNC = 32 ∧ Open.NOLOCK = 64 ∧
      Store.INSERT = 0 ∧ Store.REPLACE = 1 ∧
      (∀ a b : Nat, open_combine a b = Nat.lor a b) :=
  ⟨rfl, rfl, rfl, rfl, rfl, rfl, rfl, rfl, rfl, fun _ _ => rfl⟩

/-- C10: the Display implementation for GdbmError re-enters itself on the
same value with nothing written first, so rendering never terminates: for
every finite call-depth budget it produces no output at all, in
particular never the text of to_string. -/
theorem display_fmt_diverges :
    ∀ (fuel : Nat) (e : GdbmError), display_fmt fuel e = none := by
  intro fuel
  induction fuel with
  | zero => intro e; rfl
  | succ n ih => intro e; exact ih e
